import Mathlib

/-!
Shallow embedding of `libp2p/protocol_muxer/multiselect.py` (the responder
side of multistream-select): the handler registry, the handshake, and the
protocol-proposal loop, together with proofs of the specified properties.

The communicator (an external collaborator in the source) is modelled as a
trace oracle: a finite list of read outcomes (`some tok` = a delivered
token, `none` = a transport failure on that read; an exhausted list means
the channel fails on further reads), a finite list of write outcomes
(`true` = the write succeeds, `false` = transport failure; exhausted means
failure), and the log of tokens successfully written so far.  Exceptions
become `Except` values; the state of the muxer object and of the
communicator is threaded explicitly so that frame properties are statable.
-/

namespace Multiselect

/-- Source constant `MULTISELECT_PROTOCOL_ID = "/multistream/1.0.0"`. -/
def MULTISELECT_PROTOCOL_ID : String := "/multistream/1.0.0"

/-- Source constant `PROTOCOL_NOT_FOUND_MSG = "na"`. -/
def PROTOCOL_NOT_FOUND_MSG : String := "na"

/-- Protocol ids: `TProtocol` is a NewType over `str` in the source, so
protocol ids are plain text tokens compared byte-exactly. -/
abbrev TProtocol := String

/-- Modelled from the spec: the transport-level error kind
(`MultiselectCommunicatorError`, declared in the exceptions module which is
not part of the provided sources).  Per spec §7 it is a single
transport-level error kind (disconnect, decode failure). -/
inductive CommErr where
  | commErr
deriving DecidableEq, Repr

/-- Modelled from the spec: the error surfaced to callers
(`MultiselectError`, declared in the exceptions module which is not part of
the provided sources).  Per spec §7 it wraps either a communicator failure
or a handshake mismatch carrying the received token. -/
inductive MultiselectError where
  | wrapped (e : CommErr)
  | mismatch (received : String)
deriving DecidableEq, Repr

/-- Modelled from the spec: the communicator collaborator
(`IMultiselectCommunicator`, whose interface module is not part of the
provided sources).  Per spec §4.1 it exposes `read`/`write(token)` over one
channel, each of which may fail with the transport-level error kind.  Here
its behaviour is a finite trace oracle: `reads` lists the outcome of each
successive read, `writes` the outcome of each successive write, and
`written` logs the tokens successfully written, in order. -/
structure Communicator where
  reads : List (Option String)
  writes : List Bool
  written : List String
deriving DecidableEq, Repr

/-- Model of `communicator.read()`: produce the next token or fail with
the transport error (a `none` entry, or an exhausted/closed channel). -/
def Communicator.read : Communicator → Except CommErr (String × Communicator)
  | ⟨[], _, _⟩ => .error .commErr
  | ⟨none :: _, _, _⟩ => .error .commErr
  | ⟨some tok :: rs, ws, log⟩ => .ok (tok, ⟨rs, ws, log⟩)

/-- Model of `communicator.write(tok)`: send a token, or fail with the
transport error (a `false` entry, or an exhausted/closed channel). -/
def Communicator.write : Communicator → String → Except CommErr Communicator
  | ⟨_, [], _⟩, _ => .error .commErr
  | ⟨_, false :: _, _⟩, _ => .error .commErr
  | ⟨rs, true :: ws, log⟩, tok => .ok ⟨rs, ws, log ++ [tok]⟩

/-- The `Multiselect` muxer object: its only state is `self.handlers`, the
mapping from protocol id to handler.  The Python `Dict` is modelled as an
association list with unique keys; `H` is the opaque handler type. -/
structure Muxer (H : Type) where
  handlers : List (TProtocol × H)
deriving DecidableEq, Repr

/-- Update of the handlers dict: `self.handlers[protocol] = handler`
(replace the entry if the key is present, append otherwise). -/
def dictInsert {H : Type} : List (TProtocol × H) → TProtocol → H → List (TProtocol × H)
  | [], p, h => [(p, h)]
  | (q, g) :: t, p, h => if q = p then (p, h) :: t else (q, g) :: dictInsert t p h

/-- Source method `Multiselect.add_handler(protocol, handler)`: store the
handler with the given protocol. -/
def add_handler {H : Type} (m : Muxer H) (protocol : TProtocol) (handler : H) : Muxer H :=
  ⟨dictInsert m.handlers protocol handler⟩

/-- Source function `validate_handshake(handshake_contents)`: true iff the
received contents equal the multiselect protocol id, byte-exactly. -/
def validate_handshake (handshake_contents : String) : Bool :=
  handshake_contents == MULTISELECT_PROTOCOL_ID

/-- Source method `Multiselect.handshake(communicator)`: write our
protocol id, read the peer's, and check that they match.  Communicator failures are wrapped into
`MultiselectError`; a mismatch raises the mismatch error carrying the
received contents.  Returns the communicator state at exit. -/
def handshake (c : Communicator) : Except MultiselectError Unit × Communicator :=
  match c.write MULTISELECT_PROTOCOL_ID with
  | .error e => (.error (.wrapped e), c)
  | .ok c₁ =>
    match c₁.read with
    | .error e => (.error (.wrapped e), c₁)
    | .ok (handshake_contents, c₂) =>
      if validate_handshake handshake_contents then (.ok (), c₂)
      else (.error (.mismatch handshake_contents), c₂)

/-- A successful read consumes exactly one entry of the read trace. -/
theorem read_ok_length {c c' : Communicator} {t : String}
    (h : c.read = .ok (t, c')) : c'.reads.length < c.reads.length := by
  obtain ⟨rs, ws, log⟩ := c
  match rs with
  | [] => simp [Communicator.read] at h
  | none :: _ => simp [Communicator.read] at h
  | some tok :: rs' =>
    simp only [Communicator.read, Except.ok.injEq, Prod.mk.injEq] at h
    obtain ⟨-, h⟩ := h
    subst h
    simp

/-- A successful write leaves the read trace untouched. -/
theorem write_ok_reads {c c' : Communicator} {tok : String}
    (h : c.write tok = .ok c') : c'.reads = c.reads := by
  obtain ⟨rs, ws, log⟩ := c
  match ws with
  | [] => simp [Communicator.write] at h
  | false :: _ => simp [Communicator.write] at h
  | true :: ws' =>
    simp only [Communicator.write, Except.ok.injEq] at h
    subst h
    rfl

/-- The `while True` proposal loop of `Multiselect.negotiate`: read a
command; `"ls"` is ignored (TODO in the source); a registered protocol is
confirmed by echoing it and returned with its handler; an unregistered one
is answered with `PROTOCOL_NOT_FOUND_MSG` and the loop continues.  Read and
write failures are wrapped into `MultiselectError`.  The muxer state and
communicator state at exit are returned alongside the result. -/
def proposalLoop {H : Type} (m : Muxer H) (c : Communicator) :
    Except MultiselectError (TProtocol × H) × Muxer H × Communicator :=
  match hr : c.read with
  | .error e => (.error (.wrapped e), m, c)
  | .ok (command, c₁) =>
    if command = "ls" then
      proposalLoop m c₁
    else
      match m.handlers.lookup command with
      | some handler =>
        match c₁.write command with
        | .error e => (.error (.wrapped e), m, c₁)
        | .ok c₂ => (.ok (command, handler), m, c₂)
      | none =>
        match hw : c₁.write PROTOCOL_NOT_FOUND_MSG with
        | .error e => (.error (.wrapped e), m, c₁)
        | .ok c₂ => proposalLoop m c₂
termination_by c.reads.length
decreasing_by
  · exact read_ok_length hr
  · have h1 := read_ok_length hr
    have h2 := write_ok_reads hw
    rw [h2]
    exact h1

/-- Source method `Multiselect.negotiate(communicator)`: perform the
handshake, then run the proposal loop until a registered protocol is selected or a failure
aborts the session. -/
def negotiate {H : Type} (m : Muxer H) (c : Communicator) :
    Except MultiselectError (TProtocol × H) × Muxer H × Communicator :=
  match handshake c with
  | (.error e, c₁) => (.error e, m, c₁)
  | (.ok (), c₁) => proposalLoop m c₁


/-! Step lemmas: one unfolding of `handshake` and of `proposalLoop` per
control-flow branch of the source, phrased over the outcome of the
read/write calls. -/

/-- Handshake, branch 1: the initial write of our protocol id fails. -/
theorem handshake_write_err {c : Communicator}
    (h : c.write MULTISELECT_PROTOCOL_ID = .error .commErr) :
    handshake c = (.error (.wrapped .commErr), c) := by
  simp [handshake, h]

/-- Handshake, branch 2: the write succeeds but the read of the peer's
protocol id fails. -/
theorem handshake_read_err {c c₁ : Communicator}
    (hw : c.write MULTISELECT_PROTOCOL_ID = .ok c₁)
    (hr : c₁.read = .error .commErr) :
    handshake c = (.error (.wrapped .commErr), c₁) := by
  simp [handshake, hw, hr]

/-- Handshake, branch 3: the peer's token differs from the expected id. -/
theorem handshake_mismatch {c c₁ c₂ : Communicator} {tok : String}
    (hw : c.write MULTISELECT_PROTOCOL_ID = .ok c₁)
    (hr : c₁.read = .ok (tok, c₂))
    (hne : tok ≠ MULTISELECT_PROTOCOL_ID) :
    handshake c = (.error (.mismatch tok), c₂) := by
  simp [handshake, hw, hr, validate_handshake, hne]

/-- Handshake, branch 4: the peer's token matches the expected id. -/
theorem handshake_match {c c₁ c₂ : Communicator}
    (hw : c.write MULTISELECT_PROTOCOL_ID = .ok c₁)
    (hr : c₁.read = .ok (MULTISELECT_PROTOCOL_ID, c₂)) :
    handshake c = (.ok (), c₂) := by
  simp [handshake, hw, hr, validate_handshake]

/-- Non-dependent one-step unfolding of `proposalLoop`, mirroring one
iteration of the source's `while True` loop. -/
theorem proposalLoop_eq {H : Type} (m : Muxer H) (c : Communicator) :
    proposalLoop m c =
      match c.read with
      | .error e => (.error (.wrapped e), m, c)
      | .ok (command, c₁) =>
        if command = "ls" then
          proposalLoop m c₁
        else
          match m.handlers.lookup command with
          | some handler =>
            match c₁.write command with
            | .error e => (.error (.wrapped e), m, c₁)
            | .ok c₂ => (.ok (command, handler), m, c₂)
          | none =>
            match c₁.write PROTOCOL_NOT_FOUND_MSG with
            | .error e => (.error (.wrapped e), m, c₁)
            | .ok c₂ => proposalLoop m c₂ := by
  rw [proposalLoop.eq_def]
  split
  · rename_i e heq
    rw [heq]
  · rename_i command c₁ heq
    rw [heq]
    by_cases hls : command = "ls"
    · simp [hls]
    · simp only [hls, if_false]
      cases hlook : m.handlers.lookup command with
      | some handler =>
        simp only [hlook]
      | none =>
        simp only [hlook]
        split
        · rename_i e hweq
          rw [hweq]
        · rename_i c₂ hweq
          rw [hweq]

/-- Loop, branch 1: the read of the next command fails. -/
theorem proposalLoop_read_err {H : Type} {m : Muxer H} {c : Communicator}
    (hr : c.read = .error .commErr) :
    proposalLoop m c = (.error (.wrapped .commErr), m, c) := by
  rw [proposalLoop_eq]
  simp [hr]

/-- Loop, branch 2: the command is the listing token; nothing is written
and the loop continues on the remaining trace. -/
theorem proposalLoop_ls {H : Type} {m : Muxer H} {c c₁ : Communicator}
    (hr : c.read = .ok ("ls", c₁)) :
    proposalLoop m c = proposalLoop m c₁ := by
  rw [proposalLoop_eq]
  simp [hr]

/-- Loop, branch 3: the command is a registered protocol and the
confirmation write succeeds; the pair is returned. -/
theorem proposalLoop_found {H : Type} {m : Muxer H} {c c₁ c₂ : Communicator}
    {command : String} {handler : H}
    (hr : c.read = .ok (command, c₁)) (hls : command ≠ "ls")
    (hreg : m.handlers.lookup command = some handler)
    (hw : c₁.write command = .ok c₂) :
    proposalLoop m c = (.ok (command, handler), m, c₂) := by
  rw [proposalLoop_eq]
  simp [hr, hls, hreg, hw]

/-- Loop, branch 4: the command is a registered protocol but the
confirmation write fails. -/
theorem proposalLoop_found_write_err {H : Type} {m : Muxer H} {c c₁ : Communicator}
    {command : String} {handler : H}
    (hr : c.read = .ok (command, c₁)) (hls : command ≠ "ls")
    (hreg : m.handlers.lookup command = some handler)
    (hw : c₁.write command = .error .commErr) :
    proposalLoop m c = (.error (.wrapped .commErr), m, c₁) := by
  rw [proposalLoop_eq]
  simp [hr, hls, hreg, hw]

/-- Loop, branch 5: the command is unregistered and the `"na"` write
succeeds; the loop continues. -/
theorem proposalLoop_na {H : Type} {m : Muxer H} {c c₁ c₂ : Communicator}
    {command : String}
    (hr : c.read = .ok (command, c₁)) (hls : command ≠ "ls")
    (hreg : m.handlers.lookup command = none)
    (hw : c₁.write PROTOCOL_NOT_FOUND_MSG = .ok c₂) :
    proposalLoop m c = proposalLoop m c₂ := by
  rw [proposalLoop_eq]
  simp [hr, hls, hreg, hw]

/-- Loop, branch 6: the command is unregistered and the `"na"` write
fails. -/
theorem proposalLoop_na_write_err {H : Type} {m : Muxer H} {c c₁ : Communicator}
    {command : String}
    (hr : c.read = .ok (command, c₁)) (hls : command ≠ "ls")
    (hreg : m.handlers.lookup command = none)
    (hw : c₁.write PROTOCOL_NOT_FOUND_MSG = .error .commErr) :
    proposalLoop m c = (.error (.wrapped .commErr), m, c₁) := by
  rw [proposalLoop_eq]
  simp [hr, hls, hreg, hw]

/-- Negotiate, branch 1: a failed handshake aborts with its error. -/
theorem negotiate_handshake_err {H : Type} {m : Muxer H} {c c₁ : Communicator}
    {e : MultiselectError} (h : handshake c = (.error e, c₁)) :
    negotiate m c = (.error e, m, c₁) := by
  simp [negotiate, h]

/-- Negotiate, branch 2: a successful handshake hands over to the
proposal loop. -/
theorem negotiate_handshake_ok {H : Type} {m : Muxer H} {c c₁ : Communicator}
    (h : handshake c = (.ok (), c₁)) :
    negotiate m c = proposalLoop m c₁ := by
  simp [negotiate, h]

/-! Concrete-trace helpers and loop invariants. -/

/-- Evaluation of the handshake on a trace whose first read is the
expected protocol id and whose first write succeeds. -/
theorem handshake_trace_ok (rs : List (Option String)) (ws : List Bool) (log : List String) :
    handshake ⟨some MULTISELECT_PROTOCOL_ID :: rs, true :: ws, log⟩ =
      (.ok (), ⟨rs, ws, log ++ [MULTISELECT_PROTOCOL_ID]⟩) := by
  exact @handshake_match ⟨some MULTISELECT_PROTOCOL_ID :: rs, true :: ws, log⟩
    ⟨some MULTISELECT_PROTOCOL_ID :: rs, ws, log ++ [MULTISELECT_PROTOCOL_ID]⟩
    ⟨rs, ws, log ++ [MULTISELECT_PROTOCOL_ID]⟩ rfl rfl

/-- Full run of a session in which the peer answers the handshake
correctly and then proposes a registered protocol `p` (other than the
listing token): the pair is returned and the session writes exactly the
handshake id followed by the single confirmation `p`. -/
theorem negotiate_found_run {H : Type} (m : Muxer H) (p : TProtocol) (h : H)
    (rs : List (Option String)) (ws : List Bool) (log : List String)
    (hls : p ≠ "ls") (hreg : m.handlers.lookup p = some h) :
    negotiate m ⟨some MULTISELECT_PROTOCOL_ID :: some p :: rs, true :: true :: ws, log⟩ =
      (.ok (p, h), m, ⟨rs, ws, log ++ [MULTISELECT_PROTOCOL_ID, p]⟩) := by
  rw [negotiate_handshake_ok (handshake_trace_ok _ _ _)]
  rw [@proposalLoop_found H m ⟨some p :: rs, true :: ws, log ++ [MULTISELECT_PROTOCOL_ID]⟩
      ⟨rs, true :: ws, log ++ [MULTISELECT_PROTOCOL_ID]⟩
      ⟨rs, ws, log ++ [MULTISELECT_PROTOCOL_ID] ++ [p]⟩ p h rfl hls hreg rfl]
  simp

/-- Inserting into the handlers dict and looking the key up again yields
the handler just inserted. -/
theorem lookup_dictInsert {H : Type} (l : List (TProtocol × H)) (p : TProtocol) (h : H) :
    (dictInsert l p h).lookup p = some h := by
  induction l with
  | nil => simp [dictInsert, List.lookup]
  | cons e t ih =>
    obtain ⟨q, g⟩ := e
    by_cases hq : q = p
    · simp [dictInsert, hq, List.lookup]
    · simp only [dictInsert, hq, if_false]
      rw [List.lookup]
      have : (p == q) = false := by
        simp [Ne.symm hq]
      simp [this, ih]

/-- The proposal loop never touches the handler registry: the muxer state
it returns is the one it was given, whatever the communicator does. -/
theorem proposalLoop_muxer_fixed {H : Type} (m : Muxer H) :
    ∀ (n : Nat) (c : Communicator), c.reads.length ≤ n → (proposalLoop m c).2.1 = m := by
  intro n
  induction n with
  | zero =>
    intro c hlen
    have hnil : c.reads = [] := List.length_eq_zero.mp (Nat.le_zero.mp hlen)
    obtain ⟨rs, ws, log⟩ := c
    simp only at hnil
    subst hnil
    rw [@proposalLoop_read_err H m ⟨[], ws, log⟩ rfl]
  | succ n ih =>
    intro c hlen
    rw [proposalLoop_eq]
    cases hread : c.read with
    | error e =>
      cases e
      simp
    | ok v =>
      obtain ⟨command, c₁⟩ := v
      have hlt : c₁.reads.length < c.reads.length := read_ok_length hread
      by_cases hls : command = "ls"
      · subst hls
        simp only [if_true]
        exact ih c₁ (by omega)
      · simp only [hls, if_false]
        cases hlook : m.handlers.lookup command with
        | some handler =>
          cases hwrite : c₁.write command with
          | error e => simp
          | ok c₂ => simp
        | none =>
          cases hwrite : c₁.write PROTOCOL_NOT_FOUND_MSG with
          | error e => simp
          | ok c₂ =>
            simp only
            have hlen2 : c₂.reads.length = c₁.reads.length := by
              rw [write_ok_reads hwrite]
            exact ih c₂ (by omega)

/-- A successful result of the proposal loop never selects the listing
token, whatever the registry holds: the `"ls"` branch is taken before the
registry is consulted. -/
theorem proposalLoop_never_ls {H : Type} (m : Muxer H) :
    ∀ (n : Nat) (c : Communicator), c.reads.length ≤ n →
      ∀ (p : TProtocol) (h : H) (mx : Muxer H) (c' : Communicator),
        proposalLoop m c = (.ok (p, h), mx, c') → p ≠ "ls" := by
  intro n
  induction n with
  | zero =>
    intro c hlen p h mx c' hrun
    have hnil : c.reads = [] := List.length_eq_zero.mp (Nat.le_zero.mp hlen)
    obtain ⟨rs, ws, log⟩ := c
    simp only at hnil
    subst hnil
    rw [@proposalLoop_read_err H m ⟨[], ws, log⟩ rfl] at hrun
    simp at hrun
  | succ n ih =>
    intro c hlen p h mx c' hrun
    rw [proposalLoop_eq] at hrun
    cases hread : c.read with
    | error e =>
      rw [hread] at hrun
      simp at hrun
    | ok v =>
      obtain ⟨command, c₁⟩ := v
      rw [hread] at hrun
      have hlt : c₁.reads.length < c.reads.length := read_ok_length hread
      by_cases hls : command = "ls"
      · subst hls
        simp only [if_true] at hrun
        exact ih c₁ (by omega) p h mx c' hrun
      · simp only [hls, if_false] at hrun
        cases hlook : m.handlers.lookup command with
        | some handler =>
          rw [hlook] at hrun
          cases hwrite : c₁.write command with
          | error e =>
            rw [hwrite] at hrun
            simp at hrun
          | ok c₂ =>
            rw [hwrite] at hrun
            simp only [Prod.mk.injEq, Except.ok.injEq] at hrun
            obtain ⟨⟨hp, -⟩, -⟩ := hrun
            subst hp
            exact hls
        | none =>
          rw [hlook] at hrun
          cases hwrite : c₁.write PROTOCOL_NOT_FOUND_MSG with
          | error e =>
            rw [hwrite] at hrun
            simp at hrun
          | ok c₂ =>
            rw [hwrite] at hrun
            have hlen2 : c₂.reads.length = c₁.reads.length := by
              rw [write_ok_reads hwrite]
            exact ih c₂ (by omega) p h mx c' hrun

/-! The claims. -/

/-- C1, counterexample: the claim quantifies over every registered id, but
a handler registered under the reserved listing token `"ls"` refutes it:
the registry registers `"ls"` (with handler `37`), the peer completes the
handshake and then proposes `"ls"` with ample write capacity, yet
`negotiate` does not return the pair — the `"ls"` branch swallows the
proposal, nothing is written in response, and the session ends with a
wrapped read failure once the trace is exhausted. -/
theorem negotiate_registered_ls_not_selected :
    (Muxer.mk [("ls", 37)] : Muxer Nat).handlers.lookup "ls" = some 37 ∧
      negotiate (Muxer.mk [("ls", 37)] : Muxer Nat)
          ⟨[some MULTISELECT_PROTOCOL_ID, some "ls"], [true, true, true], []⟩ =
        (.error (.wrapped .commErr), Muxer.mk [("ls", 37)],
          ⟨[], [true, true], [MULTISELECT_PROTOCOL_ID]⟩) := by
  refine ⟨by decide, ?_⟩
  rw [negotiate_handshake_ok (handshake_trace_ok _ _ _)]
  rw [@proposalLoop_ls Nat (Muxer.mk [("ls", 37)])
    ⟨[some "ls"], [true, true], [] ++ [MULTISELECT_PROTOCOL_ID]⟩
    ⟨[], [true, true], [] ++ [MULTISELECT_PROTOCOL_ID]⟩ rfl]
  rw [@proposalLoop_read_err Nat (Muxer.mk [("ls", 37)])
    ⟨[], [true, true], [] ++ [MULTISELECT_PROTOCOL_ID]⟩ rfl]
  rfl

/-- C1 (amended: the registered id must differ from the reserved listing
token `"ls"`): for every protocol id `p ≠ "ls"` registered in the handler
registry, if the peer completes the handshake successfully and then
proposes `p`, `negotiate` returns the pair `(p, handler_p)` where
`handler_p` is the handler currently registered for `p`, and exactly one
confirmation token equal to `p` is written to the peer before returning
(the session's writes are the handshake id followed by the single
confirmation `p`). -/
theorem negotiate_selects_registered {H : Type} (m : Muxer H) (p : TProtocol) (h : H)
    (rs : List (Option String)) (ws : List Bool) (log : List String)
    (hls : p ≠ "ls") (hreg : m.handlers.lookup p = some h) :
    negotiate m ⟨some MULTISELECT_PROTOCOL_ID :: some p :: rs, true :: true :: ws, log⟩ =
      (.ok (p, h), m, ⟨rs, ws, log ++ [MULTISELECT_PROTOCOL_ID, p]⟩) :=
  negotiate_found_run m p h rs ws log hls hreg

/-- C1, witness: the amended theorem applied to a registry holding
`/echo/1.0.0` and a peer that handshakes and proposes it. -/
theorem negotiate_selects_registered_witness :
    negotiate (Muxer.mk [("/echo/1.0.0", 5)] : Muxer Nat)
        ⟨[some MULTISELECT_PROTOCOL_ID, some "/echo/1.0.0"], [true, true], []⟩ =
      (.ok ("/echo/1.0.0", 5), Muxer.mk [("/echo/1.0.0", 5)],
        ⟨[], [], [MULTISELECT_PROTOCOL_ID, "/echo/1.0.0"]⟩) :=
  negotiate_selects_registered (Muxer.mk [("/echo/1.0.0", 5)]) "/echo/1.0.0" 5 [] [] []
    (by decide) (by decide)

/-- C2: every communicator failure at any read or write of `negotiate`
(the handshake write, the handshake read, a proposal-loop read, the
confirmation write, or the not-available write) terminates the session
with the transport error wrapped into a `MultiselectError`; no handler
pair is returned.  The transport error type itself never crosses the
boundary: the result type of `negotiate` only carries `MultiselectError`,
and each failing site below is shown to produce the `.wrapped` form. -/
theorem negotiate_wraps_communicator_failures {H : Type} (m : Muxer H) (c : Communicator) :
    (c.write MULTISELECT_PROTOCOL_ID = .error .commErr →
      negotiate m c = (.error (.wrapped .commErr), m, c)) ∧
    (∀ c₁, c.write MULTISELECT_PROTOCOL_ID = .ok c₁ → c₁.read = .error .commErr →
      negotiate m c = (.error (.wrapped .commErr), m, c₁)) ∧
    (∀ c₁, handshake c = (.ok (), c₁) → negotiate m c = proposalLoop m c₁) ∧
    (c.read = .error .commErr →
      proposalLoop m c = (.error (.wrapped .commErr), m, c)) ∧
    (∀ command c₁ handler, c.read = .ok (command, c₁) → command ≠ "ls" →
      m.handlers.lookup command = some handler → c₁.write command = .error .commErr →
      proposalLoop m c = (.error (.wrapped .commErr), m, c₁)) ∧
    (∀ command c₁, c.read = .ok (command, c₁) → command ≠ "ls" →
      m.handlers.lookup command = none →
      c₁.write PROTOCOL_NOT_FOUND_MSG = .error .commErr →
      proposalLoop m c = (.error (.wrapped .commErr), m, c₁)) := by
  refine ⟨?_, ?_, ?_, ?_, ?_, ?_⟩
  · intro hw
    exact negotiate_handshake_err (handshake_write_err hw)
  · intro c₁ hw hr
    exact negotiate_handshake_err (handshake_read_err hw hr)
  · intro c₁ hh
    exact negotiate_handshake_ok hh
  · intro hr
    exact proposalLoop_read_err hr
  · intro command c₁ handler hr hls hreg hw
    exact proposalLoop_found_write_err hr hls hreg hw
  · intro command c₁ hr hls hreg hw
    exact proposalLoop_na_write_err hr hls hreg hw

/-- C2, witness: on a closed channel (no read or write capacity), the
handshake write fails and `negotiate` aborts with the wrapped transport
error; likewise a proposal-loop read on the closed channel aborts the
loop with the wrapped transport error. -/
theorem negotiate_wraps_communicator_failures_witness :
    negotiate (Muxer.mk [] : Muxer Nat) ⟨[], [], []⟩ =
        (.error (.wrapped .commErr), Muxer.mk [], ⟨[], [], []⟩) ∧
      proposalLoop (Muxer.mk [] : Muxer Nat) ⟨[], [], []⟩ =
        (.error (.wrapped .commErr), Muxer.mk [], ⟨[], [], []⟩) :=
  ⟨(negotiate_wraps_communicator_failures (Muxer.mk []) ⟨[], [], []⟩).1 rfl,
    (negotiate_wraps_communicator_failures (Muxer.mk []) ⟨[], [], []⟩).2.2.2.1 rfl⟩

/-- C3: if the peer's handshake token differs byte-exactly from
`/multistream/1.0.0`, `negotiate` fails with the mismatch error carrying
the received token, and no proposal-loop read or write happens afterward:
the remaining read trace `rs` and write trace `ws` are returned untouched,
and the only token written in the whole session is the engine's own
handshake id. -/
theorem handshake_mismatch_aborts {H : Type} (m : Muxer H) (tok : String)
    (rs : List (Option String)) (ws : List Bool) (log : List String)
    (hne : tok ≠ MULTISELECT_PROTOCOL_ID) :
    negotiate m ⟨some tok :: rs, true :: ws, log⟩ =
      (.error (.mismatch tok), m, ⟨rs, ws, log ++ [MULTISELECT_PROTOCOL_ID]⟩) := by
  apply negotiate_handshake_err
  exact @handshake_mismatch ⟨some tok :: rs, true :: ws, log⟩
    ⟨some tok :: rs, ws, log ++ [MULTISELECT_PROTOCOL_ID]⟩
    ⟨rs, ws, log ++ [MULTISELECT_PROTOCOL_ID]⟩ tok rfl rfl hne

/-- C3, witness: the theorem applied to the handshake token
`/multistream/2.0.0`. -/
theorem handshake_mismatch_aborts_witness :
    negotiate (Muxer.mk [] : Muxer Nat) ⟨[some "/multistream/2.0.0"], [true], []⟩ =
      (.error (.mismatch "/multistream/2.0.0"), Muxer.mk [],
        ⟨[], [], [MULTISELECT_PROTOCOL_ID]⟩) :=
  handshake_mismatch_aborts (Muxer.mk []) "/multistream/2.0.0" [] [] [] (by decide)

/-- C4: a proposal that is neither `"ls"` nor a registered id makes the
engine write exactly one `"na"` token and continue the loop, reading a
further proposal on the remaining trace; the same holds for a full
`negotiate` session whose first proposal after the handshake is
unregistered. -/
theorem unregistered_proposal_writes_na {H : Type} (m : Muxer H) (command : String)
    (rs : List (Option String)) (ws : List Bool) (log : List String)
    (hls : command ≠ "ls") (hreg : m.handlers.lookup command = none) :
    proposalLoop m ⟨some command :: rs, true :: ws, log⟩ =
        proposalLoop m ⟨rs, ws, log ++ [PROTOCOL_NOT_FOUND_MSG]⟩ ∧
      negotiate m ⟨some MULTISELECT_PROTOCOL_ID :: some command :: rs,
          true :: true :: ws, log⟩ =
        proposalLoop m ⟨rs, ws, log ++ [MULTISELECT_PROTOCOL_ID, PROTOCOL_NOT_FOUND_MSG]⟩ := by
  constructor
  · exact @proposalLoop_na H m ⟨some command :: rs, true :: ws, log⟩
      ⟨rs, true :: ws, log⟩ ⟨rs, ws, log ++ [PROTOCOL_NOT_FOUND_MSG]⟩ command
      rfl hls hreg rfl
  · rw [negotiate_handshake_ok (handshake_trace_ok _ _ _)]
    rw [@proposalLoop_na H m
      ⟨some command :: rs, true :: ws, log ++ [MULTISELECT_PROTOCOL_ID]⟩
      ⟨rs, true :: ws, log ++ [MULTISELECT_PROTOCOL_ID]⟩
      ⟨rs, ws, log ++ [MULTISELECT_PROTOCOL_ID] ++ [PROTOCOL_NOT_FOUND_MSG]⟩ command
      rfl hls hreg rfl]
    simp

/-- C4, witness: the theorem applied to a registry holding only
`/echo/1.0.0` and the unregistered proposal `/chat/1.0.0`. -/
theorem unregistered_proposal_writes_na_witness :
    proposalLoop (Muxer.mk [("/echo/1.0.0", 5)] : Muxer Nat)
        ⟨[some "/chat/1.0.0"], [true], []⟩ =
      proposalLoop (Muxer.mk [("/echo/1.0.0", 5)]) ⟨[], [], [PROTOCOL_NOT_FOUND_MSG]⟩ :=
  (unregistered_proposal_writes_na (Muxer.mk [("/echo/1.0.0", 5)]) "/chat/1.0.0" [] [] []
    (by decide) (by decide)).1

/-- C5: the handshake writes the reserved identifier first and then reads
exactly one token; when that token equals `/multistream/1.0.0` the
handshake succeeds and `negotiate` proceeds to the proposal loop on the
remaining trace (the session consumed exactly one read and one write,
logging the identifier).  The write truly comes first: on a channel with
no write capacity the handshake fails without consuming any read. -/
theorem handshake_success_proceeds {H : Type} (m : Muxer H)
    (rs : List (Option String)) (ws : List Bool) (log : List String) :
    handshake ⟨some MULTISELECT_PROTOCOL_ID :: rs, true :: ws, log⟩ =
        (.ok (), ⟨rs, ws, log ++ [MULTISELECT_PROTOCOL_ID]⟩) ∧
      negotiate m ⟨some MULTISELECT_PROTOCOL_ID :: rs, true :: ws, log⟩ =
        proposalLoop m ⟨rs, ws, log ++ [MULTISELECT_PROTOCOL_ID]⟩ ∧
      handshake ⟨rs, [], log⟩ = (.error (.wrapped .commErr), ⟨rs, [], log⟩) := by
  refine ⟨handshake_trace_ok rs ws log, ?_, handshake_write_err rfl⟩
  exact negotiate_handshake_ok (handshake_trace_ok rs ws log)

/-- C6: a proposal equal to the reserved listing token `"ls"` produces no
response at all — the write trace and the written log are unchanged — and
the loop silently continues, awaiting the next token. -/
theorem ls_proposal_silently_ignored {H : Type} (m : Muxer H)
    (rs : List (Option String)) (ws : List Bool) (log : List String) :
    proposalLoop m ⟨some "ls" :: rs, ws, log⟩ = proposalLoop m ⟨rs, ws, log⟩ :=
  @proposalLoop_ls H m ⟨some "ls" :: rs, ws, log⟩ ⟨rs, ws, log⟩ rfl

/-- C7: every `negotiate` session factors as exactly one handshake
followed by the proposal loop: if the handshake fails, `negotiate`
terminates at once with its error, touching nothing else; if it succeeds,
`negotiate` continues as exactly `proposalLoop` on the post-handshake
state — and `proposalLoop` is defined without reference to `handshake`,
so the handshake is never performed a second time and no proposal is
read, looked up, or answered before it has succeeded. -/
theorem handshake_once_before_proposals {H : Type} (m : Muxer H) (c : Communicator) :
    (∀ e c₁, handshake c = (.error e, c₁) → negotiate m c = (.error e, m, c₁)) ∧
      (∀ c₁, handshake c = (.ok (), c₁) → negotiate m c = proposalLoop m c₁) :=
  ⟨fun _ _ hh => negotiate_handshake_err hh, fun _ hh => negotiate_handshake_ok hh⟩

/-- C7, witness: the factorisation applied to a failing handshake (closed
channel) and to a succeeding one. -/
theorem handshake_once_before_proposals_witness :
    negotiate (Muxer.mk [] : Muxer Nat) ⟨[], [], []⟩ =
        (.error (.wrapped .commErr), Muxer.mk [], ⟨[], [], []⟩) ∧
      negotiate (Muxer.mk [] : Muxer Nat) ⟨[some MULTISELECT_PROTOCOL_ID], [true], []⟩ =
        proposalLoop (Muxer.mk []) ⟨[], [], [MULTISELECT_PROTOCOL_ID]⟩ :=
  ⟨(handshake_once_before_proposals (Muxer.mk []) ⟨[], [], []⟩).1
      (.wrapped .commErr) ⟨[], [], []⟩ rfl,
    (handshake_once_before_proposals (Muxer.mk []) ⟨[some MULTISELECT_PROTOCOL_ID], [true], []⟩).2
      ⟨[], [], [MULTISELECT_PROTOCOL_ID]⟩ rfl⟩

/-- C8, counterexample: the claim quantifies over every protocol id, but
`p = "ls"` refutes its negotiation half: after `add_handler("ls", 1)` and
`add_handler("ls", 2)` the registry does map `"ls"` to `2` (last write
wins), yet a session in which the peer completes the handshake and then
proposes `"ls"` does not return `("ls", 2)` — it ends with a wrapped read
failure, the proposal having been consumed by the listing branch. -/
theorem add_handler_ls_not_selected :
    (add_handler (add_handler (Muxer.mk [] : Muxer Nat) "ls" 1) "ls" 2).handlers.lookup "ls" =
        some 2 ∧
      negotiate (add_handler (add_handler (Muxer.mk [] : Muxer Nat) "ls" 1) "ls" 2)
          ⟨[some MULTISELECT_PROTOCOL_ID, some "ls"], [true, true, true], []⟩ =
        (.error (.wrapped .commErr),
          add_handler (add_handler (Muxer.mk []) "ls" 1) "ls" 2,
          ⟨[], [true, true], [MULTISELECT_PROTOCOL_ID]⟩) := by
  refine ⟨by decide, ?_⟩
  rw [negotiate_handshake_ok (handshake_trace_ok _ _ _)]
  rw [@proposalLoop_ls Nat (add_handler (add_handler (Muxer.mk []) "ls" 1) "ls" 2)
    ⟨[some "ls"], [true, true], [] ++ [MULTISELECT_PROTOCOL_ID]⟩
    ⟨[], [true, true], [] ++ [MULTISELECT_PROTOCOL_ID]⟩ rfl]
  rw [@proposalLoop_read_err Nat (add_handler (add_handler (Muxer.mk []) "ls" 1) "ls" 2)
    ⟨[], [true, true], [] ++ [MULTISELECT_PROTOCOL_ID]⟩ rfl]
  rfl

/-- C8 (amended: the protocol id must differ from the reserved listing
token `"ls"`): registering `h1` and then `h2` under the same id `p ≠ "ls"`
leaves the registry mapping `p` to `h2` (last write wins), and a
subsequent successful negotiation in which the peer proposes `p` returns
`(p, h2)`, the latest handler. -/
theorem add_handler_last_write_wins {H : Type} (m : Muxer H) (p : TProtocol) (h1 h2 : H)
    (rs : List (Option String)) (ws : List Bool) (log : List String) (hls : p ≠ "ls") :
    (add_handler (add_handler m p h1) p h2).handlers.lookup p = some h2 ∧
      negotiate (add_handler (add_handler m p h1) p h2)
          ⟨some MULTISELECT_PROTOCOL_ID :: some p :: rs, true :: true :: ws, log⟩ =
        (.ok (p, h2), add_handler (add_handler m p h1) p h2,
          ⟨rs, ws, log ++ [MULTISELECT_PROTOCOL_ID, p]⟩) := by
  have hreg : (add_handler (add_handler m p h1) p h2).handlers.lookup p = some h2 :=
    lookup_dictInsert _ p h2
  exact ⟨hreg, negotiate_found_run _ p h2 rs ws log hls hreg⟩

/-- C8, witness: the amended theorem applied to two successive
registrations of `/chat/1.0.0`. -/
theorem add_handler_last_write_wins_witness :
    (add_handler (add_handler (Muxer.mk [] : Muxer Nat) "/chat/1.0.0" 1)
          "/chat/1.0.0" 2).handlers.lookup "/chat/1.0.0" = some 2 ∧
      negotiate (add_handler (add_handler (Muxer.mk [] : Muxer Nat) "/chat/1.0.0" 1)
            "/chat/1.0.0" 2)
          ⟨[some MULTISELECT_PROTOCOL_ID, some "/chat/1.0.0"], [true, true], []⟩ =
        (.ok ("/chat/1.0.0", 2),
          add_handler (add_handler (Muxer.mk []) "/chat/1.0.0" 1) "/chat/1.0.0" 2,
          ⟨[], [], [MULTISELECT_PROTOCOL_ID, "/chat/1.0.0"]⟩) :=
  add_handler_last_write_wins (Muxer.mk []) "/chat/1.0.0" 1 2 [] [] [] (by decide)

/-- C9: a handler registered under the id `"ls"` is unreachable through
negotiation: whatever the communicator's trace, `negotiate` never returns
a pair whose protocol is `"ls"`, because a proposal equal to `"ls"` is
consumed by the listing branch before the registry is consulted. -/
theorem negotiate_never_selects_ls {H : Type} (m : Muxer H) (c : Communicator) (h₀ : H)
    (hreg : m.handlers.lookup "ls" = some h₀) :
    ∀ (h : H) (mx : Muxer H) (c' : Communicator),
      negotiate m c ≠ (.ok ("ls", h), mx, c') := by
  intro h mx c' heq
  rcases hh : handshake c with ⟨res, c₁⟩
  cases res with
  | error e =>
    rw [negotiate_handshake_err hh] at heq
    simp at heq
  | ok u =>
    cases u
    rw [negotiate_handshake_ok hh] at heq
    exact proposalLoop_never_ls m c₁.reads.length c₁ le_rfl "ls" h mx c' heq rfl

/-- C9, witness: the theorem applied to a registry mapping `"ls"` to `0`
and a peer that sends the handshake id and then `"ls"`. -/
theorem negotiate_never_selects_ls_witness :
    negotiate (Muxer.mk [("ls", 0)] : Muxer Nat)
        ⟨[some MULTISELECT_PROTOCOL_ID, some "ls"], [true, true], []⟩ ≠
      (.ok ("ls", 0), Muxer.mk [("ls", 0)], ⟨[], [], []⟩) :=
  negotiate_never_selects_ls (Muxer.mk [("ls", 0)])
    ⟨[some MULTISELECT_PROTOCOL_ID, some "ls"], [true, true], []⟩ 0 (by decide)
    0 (Muxer.mk [("ls", 0)]) ⟨[], [], []⟩

/-- C10: `negotiate` never modifies the handler registry: for every
initial registry and every communicator trace, the muxer state it hands
back — whether the session selected a pair or failed — is exactly the one
it was invoked with. -/
theorem negotiate_preserves_registry {H : Type} (m : Muxer H) (c : Communicator) :
    (negotiate m c).2.1 = m := by
  rcases hh : handshake c with ⟨res, c₁⟩
  cases res with
  | error e =>
    rw [negotiate_handshake_err hh]
  | ok u =>
    cases u
    rw [negotiate_handshake_ok hh]
    exact proposalLoop_muxer_fixed m c₁.reads.length c₁ le_rfl

end Multiselect
